import Mathlib

/-!
Shallow embedding of the predicate-evaluation core of the doris repository:
`be/src/olap/column_predicate.h` and `be/src/vec/functions/multiply.cpp`.
Definitions are transcribed from the C++ source; external collaborators that
are not part of the repository (configuration values, the runtime-filter
selectivity judgment, decimal value limits) are modelled from the spec and
marked as such in their doc comments.
-/

namespace Doris

set_option linter.unusedVariables false

/-- The `PredicateType` enumeration from `column_predicate.h`. -/
inductive PredicateType where
  | UNKNOWN
  | EQ
  | NE
  | LT
  | LE
  | GT
  | GE
  | IN_LIST
  | NOT_IN_LIST
  | IS_NULL
  | IS_NOT_NULL
  | BF
  | BITMAP_FILTER
  | MATCH
  deriving DecidableEq, Repr, Fintype

/-- `type_to_string` from `column_predicate.h`: switch over the enum with a
default branch returning the empty string. -/
def type_to_string (type : PredicateType) : String :=
  match type with
  | .UNKNOWN => "UNKNOWN"
  | .EQ => "EQ"
  | .NE => "NE"
  | .LT => "LT"
  | .LE => "LE"
  | .GT => "GT"
  | .GE => "GE"
  | .IN_LIST => "IN_LIST"
  | .NOT_IN_LIST => "NOT_IN_LIST"
  | .IS_NULL => "IS_NULL"
  | .IS_NOT_NULL => "IS_NOT_NULL"
  | .BF => "BF"
  | _ => ""

/-- `ColumnPredicate::pred_type_string`: switch over the enum with a default
branch returning "unknown". -/
def pred_type_string (type : PredicateType) : String :=
  match type with
  | .EQ => "eq"
  | .NE => "ne"
  | .LT => "lt"
  | .LE => "le"
  | .GT => "gt"
  | .GE => "ge"
  | .IN_LIST => "in"
  | .NOT_IN_LIST => "not_in"
  | .IS_NULL => "is_null"
  | .IS_NOT_NULL => "is_not_null"
  | .BF => "bf"
  | .MATCH => "match"
  | _ => "unknown"

namespace PredicateTypeTraits

/-- `PredicateTypeTraits::is_range`. -/
def is_range (type : PredicateType) : Bool :=
  type = .LT || type = .LE || type = .GT || type = .GE

/-- `PredicateTypeTraits::is_bloom_filter`. -/
def is_bloom_filter (type : PredicateType) : Bool :=
  type = .BF

/-- `PredicateTypeTraits::is_list`. -/
def is_list (type : PredicateType) : Bool :=
  type = .IN_LIST || type = .NOT_IN_LIST

/-- `PredicateTypeTraits::is_equal_or_list`. -/
def is_equal_or_list (type : PredicateType) : Bool :=
  type = .EQ || type = .IN_LIST

/-- `PredicateTypeTraits::is_comparison`. -/
def is_comparison (type : PredicateType) : Bool :=
  type = .EQ || type = .NE || type = .LT || type = .LE || type = .GT || type = .GE

end PredicateTypeTraits

/-- A `RuntimeProfile::Counter` (external to the excerpt): holds the counted
value; `COUNTER_UPDATE` adds to it atomically. -/
structure Counter where
  value : Int
  deriving DecidableEq, Repr

/-- The mutable state of a `ColumnPredicate` instance: identity fields set at
construction, the runtime-filter id, the Selectivity Sampler fields
(`_judge_counter`, `_judge_input_rows`, `_judge_filter_rows`, `_always_true`),
and the two shared profile counters (a C++ `shared_ptr`, modelled as
`Option Counter` so that null-ness is trackable). -/
structure PredState where
  column_id : Nat
  opposite : Bool
  runtime_filter_id : Int
  judge_counter : Int
  judge_input_rows : Nat
  judge_filter_rows : Nat
  always_true : Bool
  predicate_filtered_rows_counter : Option Counter
  predicate_input_rows_counter : Option Counter
  deriving DecidableEq, Repr

/-- `ColumnPredicate::_can_ignore`: true exactly when `_runtime_filter_id != -1`. -/
def _can_ignore (s : PredState) : Bool :=
  s.runtime_filter_id ≠ -1

/-- `ColumnPredicate::reset_judge_selectivity`: clears the always-true flag,
reloads the countdown from `config::runtime_filter_sampling_frequency`
(passed here as the `freq` argument, since the configuration subsystem is
outside the excerpt), and zeroes the cumulative counters. -/
def reset_judge_selectivity (freq : Int) (s : PredState) : PredState :=
  { s with
    always_true := false
    judge_counter := freq
    judge_input_rows := 0
    judge_filter_rows := 0 }

/-- Modelled from the spec: `vectorized::VRuntimeFilterWrapper::judge_selectivity`
is outside the excerpt; per the spec it compares the cumulative
filtered/input ratio against the predicate's ignore-threshold and reports
whether the predicate should be treated as always-true.  Stated
multiplicatively over the rationals to avoid division by zero. -/
def judge_selectivity (ignore_threshold : ℚ) (filter_rows input_rows : Nat) : Bool :=
  (filter_rows : ℚ) < ignore_threshold * (input_rows : ℚ)

/-- `ColumnPredicate::do_judge_selectivity`: post-decrement of the countdown
with reset when the pre-decrement value is zero, then, while not always-true,
accumulate the totals and re-evaluate the selectivity judgment. -/
def do_judge_selectivity (freq : Int) (ignore_threshold : ℚ)
    (filter_rows input_rows : Nat) (s : PredState) : PredState :=
  let old := s.judge_counter
  let s1 := { s with judge_counter := old - 1 }
  let s2 := if old = 0 then reset_judge_selectivity freq s1 else s1
  if s2.always_true then s2
  else
    let jfr := s2.judge_filter_rows + filter_rows
    let jir := s2.judge_input_rows + input_rows
    { s2 with
      judge_filter_rows := jfr
      judge_input_rows := jir
      always_true := judge_selectivity ignore_threshold jfr jir }

/-- `ColumnPredicate::update_filter_info`: `COUNTER_UPDATE` on both shared
profile counters with the filtered/input row pair. -/
def update_filter_info (filter_rows input_rows : Int) (s : PredState) : PredState :=
  { s with
    predicate_input_rows_counter :=
      s.predicate_input_rows_counter.map (fun c => ⟨c.value + input_rows⟩)
    predicate_filtered_rows_counter :=
      s.predicate_filtered_rows_counter.map (fun c => ⟨c.value + filter_rows⟩) }

/-- The `ColumnPredicate` constructor: stores the column id and the negation
flag, leaves `_runtime_filter_id` at its member initializer `-1`, creates the
two profile counters non-null at value 0, and calls
`reset_judge_selectivity`. -/
def mkColumnPredicate (freq : Int) (column_id : Nat) (opposite : Bool) : PredState :=
  reset_judge_selectivity freq
    { column_id := column_id
      opposite := opposite
      runtime_filter_id := -1
      judge_counter := 0
      judge_input_rows := 0
      judge_filter_rows := 0
      always_true := false
      predicate_filtered_rows_counter := some ⟨0⟩
      predicate_input_rows_counter := some ⟨0⟩ }

/-- `ColumnPredicate::attach_profile_counter`: always stores the filter id;
stores each supplied counter only when it is non-null. -/
def attach_profile_counter (filter_id : Int)
    (filtered_counter input_counter : Option Counter) (s : PredState) : PredState :=
  { s with
    runtime_filter_id := filter_id
    predicate_filtered_rows_counter :=
      if filtered_counter.isSome then filtered_counter
      else s.predicate_filtered_rows_counter
    predicate_input_rows_counter :=
      if input_counter.isSome then input_counter
      else s.predicate_input_rows_counter }

/-- The `EVALUATE_BY_SELECTOR` loop of `column_predicate.h`: the column is
dense when its size equals the batch size; for `i < size` the candidate index
is `i` on the dense path and `sel[i]` on the sparse path, and the surviving
indices are written compactly to the front of the selection buffer.  The
per-index kernel test (the macro's `EVALUATE_IMPL` argument) is the
parameter `keep`.  The selection buffer is modelled as the list of its live
`size` entries, so the compacted output is the filtered candidate list. -/
def evaluate_by_selector (keep : Nat → Bool) (colSize : Nat) (sel : List Nat) : List Nat :=
  let is_dense_column := colSize = sel.length
  (if is_dense_column then List.range sel.length else sel).filter keep

/-- The short-circuit `ColumnPredicate::evaluate(column, sel, size)`: early
return of `size` when always-true; otherwise run the variant's kernel
(`_evaluate_inner`, here the `EVALUATE_BY_SELECTOR` loop with per-index test
`keep`), feed the Selectivity Sampler when the predicate is ignorable, and
update the profile counters.  Returns the compacted selection prefix, the
compacted count, and the successor state. -/
def evaluate (freq : Int) (ignore_threshold : ℚ) (keep : Nat → Bool)
    (colSize : Nat) (sel : List Nat) (s : PredState) :
    List Nat × Nat × PredState :=
  let size := sel.length
  if s.always_true then (sel, size, s)
  else
    let newSel := evaluate_by_selector keep colSize sel
    let new_size := newSel.length
    let s1 := if _can_ignore s then
                do_judge_selectivity freq ignore_threshold (size - new_size) size s
              else s
    let s2 := update_filter_info (size - new_size) size s1
    (newSel, new_size, s2)

/-- A sequence of short-circuit evaluate calls, each call given by its
per-index kernel test, its column size and its selection vector. -/
def runEvaluates (freq : Int) (ignore_threshold : ℚ)
    (calls : List ((Nat → Bool) × Nat × List Nat)) (s : PredState) : PredState :=
  calls.foldl (fun st c => (evaluate freq ignore_threshold c.1 c.2.1 c.2.2 st).2.2) s

/-! ### Value decoder (`get_zone_map_value`) -/

/-- The compile-time primitive type tag (`PrimitiveType` from
`define_primitive_type.h`, external to the excerpt; the members used by the
decoder plus representative others). -/
inductive PrimitiveType where
  | TYPE_BOOLEAN
  | TYPE_TINYINT
  | TYPE_SMALLINT
  | TYPE_INT
  | TYPE_BIGINT
  | TYPE_LARGEINT
  | TYPE_FLOAT
  | TYPE_DOUBLE
  | TYPE_DATE
  | TYPE_DATETIME
  | TYPE_DECIMALV2
  deriving DecidableEq, Repr

/-- Little-endian value of a byte list (each entry one byte). -/
def leVal (bs : List Nat) : Nat :=
  bs.foldr (fun b acc => b + 256 * acc) 0

/-- Little-endian encoding of `n` into `k` bytes. -/
def leBytes : Nat → Nat → List Nat
  | 0, _ => []
  | k + 1, n => (n % 256) :: leBytes k (n / 256)

/-- Reinterpret a 64-bit unsigned value as a signed `int64_t`. -/
def toSigned64 (n : Nat) : Int :=
  if n < 2 ^ 63 then (n : Int) else (n : Int) - 2 ^ 64

/-- Reinterpret a 32-bit unsigned value as a signed `int32_t`. -/
def toSigned32 (n : Nat) : Int :=
  if n < 2 ^ 31 then (n : Int) else (n : Int) - 2 ^ 32

/-- The two's-complement 64-bit byte image of a signed integer. -/
def unsigned64 (i : Int) : Nat :=
  (i % (2 : Int) ^ 64).toNat

/-- The two's-complement 32-bit byte image of a signed integer. -/
def unsigned32 (i : Int) : Nat :=
  (i % (2 : Int) ^ 32).toNat

/-- Modelled from the spec: `decimal12_t` (external to the excerpt) is an
integer part and a fractional part packed into 12 bytes: a signed 64-bit
integer component followed by a signed 32-bit fraction component.  This is
its byte image. -/
def encode_decimal12 (integer fraction : Int) : List Nat :=
  leBytes 8 (unsigned64 integer) ++ leBytes 4 (unsigned32 fraction)

/-- The decoded result of `get_zone_map_value`: the `DECIMALV2` branch builds
the result via `from_olap_decimal(integer, fraction)`, the `DATE` branch via
`from_olap_date` on a 3-byte value, the `DATETIME` branch via
`from_olap_datetime` on an 8-byte value, and every other branch is a plain
bitwise copy of `sizeof(ResultType)` bytes.  The external constructors are
modelled as the constructors of this inductive, carrying exactly the
components the source passes them. -/
inductive ZoneMapValue where
  | from_olap_decimal (integer : Int) (fraction : Int)
  | from_olap_date (date : Nat)
  | from_olap_datetime (datetime : Nat)
  | bitwise_copy (bytes : List Nat)
  deriving DecidableEq, Repr

/-- `get_zone_map_value` from `column_predicate.h`: compile-time case analysis
on the primitive type.  `DECIMALV2` memcpys 12 bytes into a `decimal12_t`
and builds the result from its integer and fraction components; `DATE`
memcpys 3 bytes (`uint24_t`); `DATETIME` memcpys 8 bytes (`uint64_t`);
everything else memcpys `sizeof(ResultType)` bytes (`resultSize`) directly
into the result. -/
def get_zone_map_value (primitive_type : PrimitiveType) (resultSize : Nat)
    (data : List Nat) : ZoneMapValue :=
  match primitive_type with
  | .TYPE_DECIMALV2 =>
      .from_olap_decimal (toSigned64 (leVal (data.take 8)))
        (toSigned32 (leVal ((data.drop 8).take 4)))
  | .TYPE_DATE => .from_olap_date (leVal (data.take 3))
  | .TYPE_DATETIME => .from_olap_datetime (leVal (data.take 8))
  | _ => .bitwise_copy (data.take resultSize)

/-! ### Decimal multiply kernel (`multiply.cpp`) -/

/-- Modelled from the spec: `int128_t` bounds used by `common::mul_overflow`
(external to the excerpt), which reports whether the mathematical product
leaves the 128-bit signed range. -/
def INT128_MAX : Int := 2 ^ 127 - 1

/-- Modelled from the spec: lower `int128_t` bound. -/
def INT128_MIN : Int := -(2 ^ 127)

/-- `DecimalV2Value::ONE_BILLION` (external to the excerpt): the scale factor
of the 9-fractional-digit fixed-point representation. -/
def ONE_BILLION : Int := 10 ^ 9

/-- Modelled from the spec: `DecimalV2Value::get_max_decimal` (external to
the excerpt) — the largest representable stored value, 27 nines
(precision 27, scale 9), i.e. the decimal 999999999999999999.999999999. -/
def MAX_DECIMAL_STORED : Int := 10 ^ 27 - 1

/-- Modelled from the spec: `DecimalV2Value::get_min_decimal`, the negated
maximum. -/
def MIN_DECIMAL_STORED : Int := -(10 ^ 27 - 1)

/-- Two's-complement wrap of a mathematical product into `int128_t` — the
value `common::mul_overflow` leaves in its result slot when it reports
overflow. -/
def wrap128 (x : Int) : Int :=
  (x + 2 ^ 127) % 2 ^ 128 - 2 ^ 127

/-- The `sgn` computed by `MultiplyImpl::vector_vector` for one element pair:
1 when both stored values have the same nonzero sign, 0 when either is zero,
-1 otherwise. -/
def decimal_sgn (a b : Int) : Int :=
  if (a > 0 && b > 0) || (a < 0 && b < 0) then 1
  else if a = 0 || b = 0 then 0
  else -1

/-- The scaled (truncating C++ `/`, i.e. toward zero) result the kernel
stores when no overflow occurs: `(a*b - sgn) / ONE_BILLION + sgn`. -/
def decimal_mul_scaled (a b : Int) : Int :=
  Int.tdiv (a * b - decimal_sgn a b) ONE_BILLION + decimal_sgn a b

/-- The payload of `THROW_DECIMAL_BINARY_OP_OVERFLOW_EXCEPTION`: both
operands, the operation name, the offending intermediate result, and the
type name. -/
structure DecimalOverflowErr where
  lhs : Int
  op : String
  rhs : Int
  intermediate : Int
  typeName : String
  deriving DecidableEq, Repr

/-- One iteration of `MultiplyImpl::vector_vector` on stored `int128_t`
values.  With `check_overflow`: first `common::mul_overflow` on the two
stored values (throwing with the wrapped intermediate on 128-bit overflow),
then the scaled result, then the range check against the decimal min/max
(throwing with the exact intermediate product).  Without `check_overflow`:
the scaled result unconditionally. -/
def multiply_one (check_overflow : Bool) (a b : Int) : Except DecimalOverflowErr Int :=
  if check_overflow then
    if a * b > INT128_MAX ∨ a * b < INT128_MIN then
      .error ⟨a, "multiply", b, wrap128 (a * b), "decimalv2"⟩
    else
      let c := decimal_mul_scaled a b
      if c > MAX_DECIMAL_STORED ∨ c < MIN_DECIMAL_STORED then
        .error ⟨a, "multiply", b, a * b, "decimalv2"⟩
      else .ok c
  else .ok (decimal_mul_scaled a b)

/-- `MultiplyImpl::vector_vector` over whole columns: elementwise
`multiply_one`, stopping at the first thrown overflow. -/
def vector_vector (check_overflow : Bool) (a b : List Int) :
    Except DecimalOverflowErr (List Int) :=
  (a.zip b).mapM (fun ab => multiply_one check_overflow ab.1 ab.2)

/-! ### Default (non-overridden) evaluation paths of `ColumnPredicate` -/

/-- A `WrapperField` (external to the excerpt): an encoded min or max
statistics value; opaque to the default paths, which ignore it. -/
structure WrapperField where
  bytes : List Nat
  deriving DecidableEq, Repr

/-- A `segment_v2::BloomFilter` (external to the excerpt); opaque to the
default paths. -/
structure BloomFilter where
  bits : List Bool
  deriving DecidableEq, Repr

/-- A `StringRef` dictionary word (external to the excerpt); opaque to the
default paths. -/
structure StringRef where
  data : String
  deriving DecidableEq, Repr

/-- A `doris::Status` result: `OK` or a typed error status such as
`NotSupported` — a recoverable status value, distinct from a thrown
exception. -/
inductive Status where
  | OK
  | NotSupported (msg : String)
  deriving DecidableEq, Repr

/-- The outcome of a call that may throw a C++ exception: a value, or a
thrown exception with its code and message. -/
inductive Thrown (α : Type) where
  | value (a : α)
  | exception (code : String) (msg : String)
  deriving DecidableEq, Repr

/-- The base-class inverted-index `evaluate` overload: returns the
`Status::NotSupported` value unconditionally. -/
def evaluate_inverted_index_default (num_rows : Nat) : Status :=
  .NotSupported "Not Implemented evaluate with inverted index, please check the predicate"

/-- The base-class `evaluate_and` on a statistics pair: `true`
(conservatively cannot skip the page). -/
def evaluate_and_statistic_default (statistic : WrapperField × WrapperField) : Bool :=
  true

/-- The base-class `is_always_true` on a statistics pair: `false`. -/
def is_always_true_default (statistic : WrapperField × WrapperField) : Bool :=
  false

/-- The base-class `evaluate_del` on a statistics pair: `false`. -/
def evaluate_del_default (statistic : WrapperField × WrapperField) : Bool :=
  false

/-- The base-class `evaluate_and` on a bloom filter: `true`. -/
def evaluate_and_bf_default (bf : BloomFilter) : Bool :=
  true

/-- The base-class `evaluate_and` on a dictionary word list: `true`. -/
def evaluate_and_dict_default (dict_words : List StringRef) (dict_count : Nat) : Bool :=
  true

/-- The base-class `get_ignore_threshold`: 0. -/
def get_ignore_threshold_default : ℚ := 0

/-- The base-class `_evaluate_inner`: throws
`Exception(INTERNAL_ERROR, ...)` — a hard failure, not a status value. -/
def evaluate_inner_default (colSize : Nat) (sel : List Nat) : Thrown Nat :=
  .exception "INTERNAL_ERROR" "Not Implemented _evaluate_inner"

/-! ## Theorems -/

/-- C9: for every PredicateType, the classification functions are pure
functions of the tag: is_range holds exactly for LT, LE, GT, GE; is_list
exactly for IN_LIST and NOT_IN_LIST; is_comparison exactly for EQ, NE, LT,
LE, GT, GE; is_bloom_filter exactly for BF; and is_equal_or_list exactly for
EQ and IN_LIST. -/
theorem c9_classification_exact :
    (∀ t, PredicateTypeTraits.is_range t = true ↔
       t = PredicateType.LT ∨ t = .LE ∨ t = .GT ∨ t = .GE) ∧
    (∀ t, PredicateTypeTraits.is_list t = true ↔
       t = PredicateType.IN_LIST ∨ t = .NOT_IN_LIST) ∧
    (∀ t, PredicateTypeTraits.is_comparison t = true ↔
       t = PredicateType.EQ ∨ t = .NE ∨ t = .LT ∨ t = .LE ∨ t = .GT ∨ t = .GE) ∧
    (∀ t, PredicateTypeTraits.is_bloom_filter t = true ↔ t = PredicateType.BF) ∧
    (∀ t, PredicateTypeTraits.is_equal_or_list t = true ↔
       t = PredicateType.EQ ∨ t = .IN_LIST) := by
  refine ⟨?_, ?_, ?_, ?_, ?_⟩ <;> intro t <;> cases t <;> simp [PredicateTypeTraits.is_range,
    PredicateTypeTraits.is_list, PredicateTypeTraits.is_comparison,
    PredicateTypeTraits.is_bloom_filter, PredicateTypeTraits.is_equal_or_list]

/-- C8 counterexample: `type_to_string`, one of the two kind-to-string
renderings, returns the empty string (not "unknown", not a non-empty stable
name) for BITMAP_FILTER, which has no dedicated case. -/
theorem c8_counterexample_type_to_string_empty :
    type_to_string PredicateType.BITMAP_FILTER = "" ∧
    type_to_string PredicateType.MATCH = "" := by
  exact ⟨rfl, rfl⟩

/-- C8 (amended): `pred_type_string` is total and returns the explicit string
"unknown" for any kind without a dedicated case (UNKNOWN and BITMAP_FILTER),
and a non-empty stable name for every member of the enumeration including
MATCH; `type_to_string`, however, returns the empty string for kinds without
a dedicated case (BITMAP_FILTER and MATCH). -/
theorem c8_pred_type_string_total :
    (∀ t, pred_type_string t ≠ "") ∧
    pred_type_string PredicateType.UNKNOWN = "unknown" ∧
    pred_type_string PredicateType.BITMAP_FILTER = "unknown" ∧
    pred_type_string PredicateType.MATCH = "match" ∧
    pred_type_string PredicateType.BF = "bf" := by
  refine ⟨?_, rfl, rfl, rfl, rfl⟩
  intro t
  cases t <;> simp [pred_type_string]

/-- C7: the non-overridden evaluation paths return their conservative
defaults: statistics-pair evaluate_and, bloom-filter evaluate_and and
dictionary-word-list evaluate_and return true; is_always_true and
evaluate_del on statistics return false; the inverted-index evaluation
returns a typed NotSupported status value; only the un-overridden
_evaluate_inner fails hard with an INTERNAL_ERROR exception. -/
theorem c7_default_paths_conservative :
    (∀ statistic, evaluate_and_statistic_default statistic = true) ∧
    (∀ bf, evaluate_and_bf_default bf = true) ∧
    (∀ dict_words dict_count, evaluate_and_dict_default dict_words dict_count = true) ∧
    (∀ statistic, is_always_true_default statistic = false) ∧
    (∀ statistic, evaluate_del_default statistic = false) ∧
    (∀ num_rows, ∃ msg, evaluate_inverted_index_default num_rows = .NotSupported msg) ∧
    (∀ colSize sel, ∃ msg, evaluate_inner_default colSize sel =
        .exception "INTERNAL_ERROR" msg) := by
  exact ⟨fun _ => rfl, fun _ => rfl, fun _ _ => rfl, fun _ => rfl, fun _ => rfl,
    fun _ => ⟨_, rfl⟩, fun _ _ => ⟨_, rfl⟩⟩

/-- C10: attach_profile_counter always stores the supplied runtime-filter id
(so the predicate becomes ignorable exactly when the id is not -1), replaces
each stored counter only when the supplied pointer is non-null (so a stored
non-null counter stays non-null), and modifies no other predicate state. -/
theorem c10_attach_profile_counter_contract (filter_id : Int)
    (filtered_counter input_counter : Option Counter) (s : PredState) :
    (attach_profile_counter filter_id filtered_counter input_counter s).runtime_filter_id
        = filter_id ∧
    (_can_ignore (attach_profile_counter filter_id filtered_counter input_counter s)
        = true ↔ filter_id ≠ -1) ∧
    (attach_profile_counter filter_id filtered_counter input_counter
        s).predicate_filtered_rows_counter =
      (if filtered_counter.isSome then filtered_counter
       else s.predicate_filtered_rows_counter) ∧
    (attach_profile_counter filter_id filtered_counter input_counter
        s).predicate_input_rows_counter =
      (if input_counter.isSome then input_counter
       else s.predicate_input_rows_counter) ∧
    ((attach_profile_counter filter_id filtered_counter input_counter
        s).predicate_filtered_rows_counter).isSome =
      (filtered_counter.isSome || s.predicate_filtered_rows_counter.isSome) ∧
    ((attach_profile_counter filter_id filtered_counter input_counter
        s).predicate_input_rows_counter).isSome =
      (input_counter.isSome || s.predicate_input_rows_counter.isSome) ∧
    (attach_profile_counter filter_id filtered_counter input_counter s).column_id
        = s.column_id ∧
    (attach_profile_counter filter_id filtered_counter input_counter s).opposite
        = s.opposite ∧
    (attach_profile_counter filter_id filtered_counter input_counter s).judge_counter
        = s.judge_counter ∧
    (attach_profile_counter filter_id filtered_counter input_counter s).judge_input_rows
        = s.judge_input_rows ∧
    (attach_profile_counter filter_id filtered_counter input_counter s).judge_filter_rows
        = s.judge_filter_rows ∧
    (attach_profile_counter filter_id filtered_counter input_counter s).always_true
        = s.always_true := by
  refine ⟨rfl, ?_, rfl, rfl, ?_, ?_, rfl, rfl, rfl, rfl, rfl, rfl⟩
  · simp [_can_ignore, attach_profile_counter]
  · cases filtered_counter <;> simp [attach_profile_counter]
  · cases input_counter <;> simp [attach_profile_counter]

/-- Helper: the short-circuit evaluate leaves everything untouched in the
always-true state. -/
theorem evaluate_of_always_true (freq : Int) (th : ℚ) (keep : Nat → Bool)
    (colSize : Nat) (sel : List Nat) (s : PredState) (h : s.always_true = true) :
    evaluate freq th keep colSize sel s = (sel, sel.length, s) := by
  simp [evaluate, h]

/-- Helper: `do_judge_selectivity` never touches the profile counters. -/
theorem do_judge_selectivity_counters (freq : Int) (th : ℚ)
    (filter_rows input_rows : Nat) (s : PredState) :
    (do_judge_selectivity freq th filter_rows input_rows s).predicate_filtered_rows_counter
        = s.predicate_filtered_rows_counter ∧
    (do_judge_selectivity freq th filter_rows input_rows s).predicate_input_rows_counter
        = s.predicate_input_rows_counter := by
  unfold do_judge_selectivity reset_judge_selectivity
  dsimp only
  split <;> split <;> simp

/-- C1: the short-circuit evaluate: when the always-true flag is set it
returns size with the state untouched (no kernel run, no sampler feed, no
counter update); otherwise it returns the compacted count of the variant
kernel run over the dense path exactly when the column size equals the batch
size (sparse path otherwise), feeds (size - new_size, size) to the sampler
exactly when the predicate is ignorable, and then adds the same pair to the
bookkeeping counters. -/
theorem c1_evaluate_contract (freq : Int) (th : ℚ) (keep : Nat → Bool)
    (colSize : Nat) (sel : List Nat) (s : PredState) :
    (s.always_true = true →
      evaluate freq th keep colSize sel s = (sel, sel.length, s)) ∧
    (s.always_true = false →
      evaluate freq th keep colSize sel s =
        (evaluate_by_selector keep colSize sel,
         (evaluate_by_selector keep colSize sel).length,
         update_filter_info
           ((sel.length : Int) - ((evaluate_by_selector keep colSize sel).length : Int))
           (sel.length : Int)
           (if _can_ignore s then
              do_judge_selectivity freq th
                (sel.length - (evaluate_by_selector keep colSize sel).length) sel.length s
            else s)) ∧
      evaluate_by_selector keep colSize sel =
        (if colSize = sel.length then List.range sel.length else sel).filter keep ∧
      (evaluate freq th keep colSize sel s).2.2.predicate_input_rows_counter =
        s.predicate_input_rows_counter.map (fun c => ⟨c.value + (sel.length : Int)⟩) ∧
      (evaluate freq th keep colSize sel s).2.2.predicate_filtered_rows_counter =
        s.predicate_filtered_rows_counter.map
          (fun c => ⟨c.value + ((sel.length : Int) -
             ((evaluate_by_selector keep colSize sel).length : Int))⟩) ∧
      (_can_ignore s = false →
        (evaluate freq th keep colSize sel s).2.2.judge_counter = s.judge_counter ∧
        (evaluate freq th keep colSize sel s).2.2.judge_input_rows = s.judge_input_rows ∧
        (evaluate freq th keep colSize sel s).2.2.judge_filter_rows = s.judge_filter_rows ∧
        (evaluate freq th keep colSize sel s).2.2.always_true = false)) := by
  constructor
  · intro h
    exact evaluate_of_always_true freq th keep colSize sel s h
  · intro h
    have hlen : (evaluate_by_selector keep colSize sel).length ≤ sel.length := by
      unfold evaluate_by_selector
      dsimp only
      split
      · simpa using (List.length_filter_le keep (List.range sel.length))
      · exact List.length_filter_le keep sel
    have heval : evaluate freq th keep colSize sel s =
        (evaluate_by_selector keep colSize sel,
         (evaluate_by_selector keep colSize sel).length,
         update_filter_info
           ((sel.length : Int) - ((evaluate_by_selector keep colSize sel).length : Int))
           (sel.length : Int)
           (if _can_ignore s then
              do_judge_selectivity freq th
                (sel.length - (evaluate_by_selector keep colSize sel).length) sel.length s
            else s)) := by
      simp only [evaluate, h, Bool.false_eq_true, if_false]
    refine ⟨heval, rfl, ?_, ?_, ?_⟩
    · rw [heval]
      dsimp only
      split
      · rcases do_judge_selectivity_counters freq th
          (sel.length - (evaluate_by_selector keep colSize sel).length) sel.length s with ⟨h1, h2⟩
        simp [update_filter_info, h2]
      · simp [update_filter_info]
    · rw [heval]
      dsimp only
      split
      · rcases do_judge_selectivity_counters freq th
          (sel.length - (evaluate_by_selector keep colSize sel).length) sel.length s with ⟨h1, h2⟩
        simp [update_filter_info, h1]
      · simp [update_filter_info]
    · intro hci
      rw [heval]
      simp [update_filter_info, hci, h]

/-- C1 witness: in the always-true state the evaluate call returns the batch
size and changes nothing; the non-always-true branch at a concrete sparse
call. -/
theorem c1_evaluate_witness :
    (mkColumnPredicate 10 0 false).always_true = false ∧
    evaluate 10 0 (fun i => decide (i ≥ 3)) 8 [1, 3, 5] (mkColumnPredicate 10 0 false) =
      (evaluate_by_selector (fun i => decide (i ≥ 3)) 8 [1, 3, 5],
       (evaluate_by_selector (fun i => decide (i ≥ 3)) 8 [1, 3, 5]).length,
       update_filter_info
         ((3 : Int) - ((evaluate_by_selector (fun i => decide (i ≥ 3)) 8 [1, 3, 5]).length : Int))
         (3 : Int)
         (if _can_ignore (mkColumnPredicate 10 0 false) then
            do_judge_selectivity 10 0
              (3 - (evaluate_by_selector (fun i => decide (i ≥ 3)) 8 [1, 3, 5]).length) 3
              (mkColumnPredicate 10 0 false)
          else mkColumnPredicate 10 0 false)) :=
  ⟨rfl,
   ((c1_evaluate_contract 10 0 (fun i => decide (i ≥ 3)) 8 [1, 3, 5]
      (mkColumnPredicate 10 0 false)).2 rfl).1⟩

/-- C2: when not always-true, the compacted selection produced by the
short-circuit evaluate is strictly increasing and a subsequence of the input
selection (of the identity sequence 0..size-1 on the dense path). -/
theorem c2_output_increasing_subsequence (freq : Int) (th : ℚ) (keep : Nat → Bool)
    (colSize : Nat) (sel : List Nat) (s : PredState)
    (hat : s.always_true = false) (hsel : List.Pairwise (· < ·) sel) :
    List.Pairwise (· < ·) (evaluate freq th keep colSize sel s).1 ∧
    (evaluate freq th keep colSize sel s).1.Sublist
      (if colSize = sel.length then List.range sel.length else sel) := by
  have h1 : (evaluate freq th keep colSize sel s).1 =
      (if colSize = sel.length then List.range sel.length else sel).filter keep := by
    simp [evaluate, hat, evaluate_by_selector]
  rw [h1]
  refine ⟨?_, List.filter_sublist _⟩
  apply List.Pairwise.sublist (List.filter_sublist _)
  split
  · exact List.pairwise_lt_range _
  · exact hsel

/-- C2 witness: a concrete sparse strictly increasing input. -/
theorem c2_output_witness :
    (mkColumnPredicate 10 0 false).always_true = false ∧
    List.Pairwise (· < ·) [1, 3, 5] ∧
    (List.Pairwise (· < ·)
       (evaluate 10 0 (fun i => decide (i ≥ 3)) 8 [1, 3, 5] (mkColumnPredicate 10 0 false)).1 ∧
     (evaluate 10 0 (fun i => decide (i ≥ 3)) 8 [1, 3, 5]
        (mkColumnPredicate 10 0 false)).1.Sublist
       (if (8 : Nat) = ([1, 3, 5] : List Nat).length then List.range ([1, 3, 5] : List Nat).length
        else [1, 3, 5])) :=
  ⟨rfl, by decide,
   c2_output_increasing_subsequence 10 0 (fun i => decide (i ≥ 3)) 8 [1, 3, 5]
     (mkColumnPredicate 10 0 false) rfl (by decide)⟩

/-- Helper: a state whose always-true flag is set is never changed again by
the short-circuit evaluate, whatever the calls are. -/
theorem runEvaluates_of_always_true (freq : Int) (th : ℚ)
    (calls : List ((Nat → Bool) × Nat × List Nat)) (s : PredState)
    (h : s.always_true = true) :
    runEvaluates freq th calls s = s := by
  induction calls with
  | nil => rfl
  | cons c cs ih =>
      unfold runEvaluates at ih ⊢
      simp only [List.foldl_cons]
      rw [show (evaluate freq th c.1 c.2.1 c.2.2 s).2.2 = s from by
        rw [evaluate_of_always_true freq th c.1 c.2.1 c.2.2 s h]]
      exact ih

/-- A concrete AlwaysTrue-state predicate whose sampling countdown has
already reached zero: runtime-filter id 7 (ignorable), countdown 0,
always-true set. -/
def stuckState : PredState :=
  { column_id := 0
    opposite := false
    runtime_filter_id := 7
    judge_counter := 0
    judge_input_rows := 100
    judge_filter_rows := 100
    always_true := true
    predicate_filtered_rows_counter := some ⟨0⟩
    predicate_input_rows_counter := some ⟨0⟩ }

/-- C3: the code keeps the AlwaysTrue state forever.  At a concrete ignorable
predicate whose countdown already reached zero, a short-circuit evaluate call
— and any number of further calls — leaves the whole state unchanged: the
countdown is not decremented and the always-true flag is never cleared, so
the sampler never resets to a fresh Sampling state, contrary to the claim
(and to the reset described by the source's own comment). -/
theorem c3_always_true_never_resets :
    stuckState.always_true = true ∧
    stuckState.judge_counter = 0 ∧
    _can_ignore stuckState = true ∧
    (evaluate 10 (1 / 2) (fun _ => false) 4 [0, 1, 2, 3] stuckState).2.2 = stuckState ∧
    (runEvaluates 10 (1 / 2)
        (List.replicate 1000 (fun _ => false, 4, [0, 1, 2, 3])) stuckState).always_true
      = true ∧
    (runEvaluates 10 (1 / 2)
        (List.replicate 1000 (fun _ => false, 4, [0, 1, 2, 3])) stuckState).judge_counter
      = 0 := by
  have hrun : runEvaluates 10 (1 / 2)
      (List.replicate 1000 (fun _ => false, 4, [0, 1, 2, 3])) stuckState = stuckState :=
    runEvaluates_of_always_true 10 (1 / 2) _ stuckState rfl
  refine ⟨rfl, rfl, rfl, ?_, ?_, ?_⟩
  · rw [evaluate_of_always_true 10 (1 / 2) (fun _ => false) 4 [0, 1, 2, 3] stuckState rfl]
  · rw [hrun]
    rfl
  · rw [hrun]
    rfl

/-- Helper: a predicate whose runtime-filter id is -1 and whose always-true
flag is clear keeps both properties across one short-circuit evaluate call. -/
theorem evaluate_preserves_no_rfid (freq : Int) (th : ℚ) (keep : Nat → Bool)
    (colSize : Nat) (sel : List Nat) (s : PredState)
    (hid : s.runtime_filter_id = -1) (hat : s.always_true = false) :
    (evaluate freq th keep colSize sel s).2.2.runtime_filter_id = -1 ∧
    (evaluate freq th keep colSize sel s).2.2.always_true = false := by
  have hci : _can_ignore s = false := by simp [_can_ignore, hid]
  simp [evaluate, hat, hci, update_filter_info, hid]

/-- Helper: the invariant of `evaluate_preserves_no_rfid` holds over any
sequence of short-circuit evaluate calls. -/
theorem runEvaluates_preserves_no_rfid (freq : Int) (th : ℚ)
    (calls : List ((Nat → Bool) × Nat × List Nat)) (s : PredState)
    (hid : s.runtime_filter_id = -1) (hat : s.always_true = false) :
    (runEvaluates freq th calls s).runtime_filter_id = -1 ∧
    (runEvaluates freq th calls s).always_true = false := by
  induction calls generalizing s with
  | nil => exact ⟨hid, hat⟩
  | cons c cs ih =>
      unfold runEvaluates
      simp only [List.foldl_cons]
      rcases evaluate_preserves_no_rfid freq th c.1 c.2.1 c.2.2 s hid hat with ⟨h1, h2⟩
      exact ih _ h1 h2

/-- C4: a predicate is ignorable exactly when its runtime-filter id is not
-1, and a predicate constructed with the default id -1 never has its
always-true flag set by any sequence of short-circuit evaluate calls. -/
theorem c4_no_rfid_never_always_true :
    (∀ s : PredState, _can_ignore s = true ↔ s.runtime_filter_id ≠ -1) ∧
    (∀ (freq : Int) (th : ℚ) (column_id : Nat) (opposite : Bool)
       (calls : List ((Nat → Bool) × Nat × List Nat)),
       (runEvaluates freq th calls (mkColumnPredicate freq column_id opposite)).always_true
           = false ∧
       (runEvaluates freq th calls
           (mkColumnPredicate freq column_id opposite)).runtime_filter_id = -1) := by
  constructor
  · intro s
    simp [_can_ignore]
  · intro freq th column_id opposite calls
    rcases runEvaluates_preserves_no_rfid freq th calls
        (mkColumnPredicate freq column_id opposite) rfl rfl with ⟨h1, h2⟩
    exact ⟨h2, h1⟩

/-- C4 witness: the ignorability criterion at a concrete state, and a
concrete call sequence on a freshly constructed predicate. -/
theorem c4_no_rfid_witness :
    (_can_ignore stuckState = true ↔ stuckState.runtime_filter_id ≠ -1) ∧
    (runEvaluates 10 0 [(fun _ => true, 4, [0, 1, 2, 3]), (fun _ => false, 4, [0, 1, 2, 3])]
        (mkColumnPredicate 10 2 false)).always_true = false :=
  ⟨c4_no_rfid_never_always_true.1 stuckState,
   (c4_no_rfid_never_always_true.2 10 0 2 false
      [(fun _ => true, 4, [0, 1, 2, 3]), (fun _ => false, 4, [0, 1, 2, 3])]).1⟩

/-- Helper: `vector_vector` on singleton columns is `multiply_one` lifted. -/
theorem vector_vector_singleton (check_overflow : Bool) (a b : Int) :
    vector_vector check_overflow [a] [b] =
      (multiply_one check_overflow a b).map (fun c => [c]) := by
  unfold vector_vector
  cases h : multiply_one check_overflow a b <;>
    simp [List.zip, List.mapM, List.mapM.loop, h, Except.map]

/-- C5: the overflow-checking decimal multiply kernel checks the mathematical
128-bit product first and the scaled result against the representable
min/max second; on either overflow it signals an arithmetic-overflow error
carrying both operands and the offending intermediate result, and otherwise
(and only otherwise) it stores the scaled product. -/
theorem c5_decimal_multiply_overflow (a b : Int) :
    (a * b > INT128_MAX ∨ a * b < INT128_MIN →
       vector_vector true [a] [b] =
         .error ⟨a, "multiply", b, wrap128 (a * b), "decimalv2"⟩) ∧
    (¬(a * b > INT128_MAX ∨ a * b < INT128_MIN) →
       (decimal_mul_scaled a b > MAX_DECIMAL_STORED ∨
          decimal_mul_scaled a b < MIN_DECIMAL_STORED →
          vector_vector true [a] [b] = .error ⟨a, "multiply", b, a * b, "decimalv2"⟩) ∧
       (¬(decimal_mul_scaled a b > MAX_DECIMAL_STORED ∨
            decimal_mul_scaled a b < MIN_DECIMAL_STORED) →
          vector_vector true [a] [b] = .ok [decimal_mul_scaled a b])) := by
  rw [vector_vector_singleton]
  refine ⟨?_, fun h128 => ⟨?_, ?_⟩⟩
  · intro h
    rw [show multiply_one true a b = .error ⟨a, "multiply", b, wrap128 (a * b), "decimalv2"⟩
        from by simp [multiply_one, if_pos h]]
    rfl
  · intro hrange
    rw [show multiply_one true a b = .error ⟨a, "multiply", b, a * b, "decimalv2"⟩
        from by simp only [multiply_one, if_pos trivial, if_neg h128, if_pos hrange, if_true]]
    rfl
  · intro hrange
    rw [show multiply_one true a b = .ok (decimal_mul_scaled a b)
        from by simp only [multiply_one, if_neg h128, if_neg hrange, if_true]]
    rfl

/-- C5 witness: squaring the largest representable DecimalV2 stored value —
the decimal literal 999999999999999999999999999 of the claim — overflows the
128-bit product and the kernel signals the overflow error carrying both
operands instead of storing a wrapped value. -/
theorem c5_decimal_multiply_witness :
    MAX_DECIMAL_STORED = 999999999999999999999999999 ∧
    (MAX_DECIMAL_STORED * MAX_DECIMAL_STORED > INT128_MAX ∨
       MAX_DECIMAL_STORED * MAX_DECIMAL_STORED < INT128_MIN) ∧
    vector_vector true [MAX_DECIMAL_STORED] [MAX_DECIMAL_STORED] =
      .error ⟨MAX_DECIMAL_STORED, "multiply", MAX_DECIMAL_STORED,
        wrap128 (MAX_DECIMAL_STORED * MAX_DECIMAL_STORED), "decimalv2"⟩ :=
  ⟨by norm_num [MAX_DECIMAL_STORED], by norm_num [MAX_DECIMAL_STORED, INT128_MAX, INT128_MIN],
   (c5_decimal_multiply_overflow MAX_DECIMAL_STORED MAX_DECIMAL_STORED).1
     (by norm_num [MAX_DECIMAL_STORED, INT128_MAX, INT128_MIN])⟩

/-- Helper: `leBytes k n` has exactly `k` bytes. -/
theorem leBytes_length (k n : Nat) : (leBytes k n).length = k := by
  induction k generalizing n with
  | zero => rfl
  | succ m ih => simp [leBytes, ih]

/-- Helper: decoding the little-endian encoding of `n < 256 ^ k` gives `n`
back. -/
theorem leVal_leBytes (k n : Nat) (h : n < 256 ^ k) : leVal (leBytes k n) = n := by
  induction k generalizing n with
  | zero =>
      interval_cases n
      rfl
  | succ m ih =>
      have hdiv : n / 256 < 256 ^ m := by
        rw [Nat.div_lt_iff_lt_mul (by norm_num)]
        calc n < 256 ^ (m + 1) := h
        _ = 256 ^ m * 256 := by ring
      simp only [leBytes, leVal, List.foldr_cons]
      have : leVal (leBytes m (n / 256)) = n / 256 := ih (n / 256) hdiv
      unfold leVal at this
      rw [this]
      omega

/-- Helper: the 64-bit two's-complement image fits in 8 bytes. -/
theorem unsigned64_lt (i : Int) : unsigned64 i < 256 ^ 8 := by
  unfold unsigned64
  have h1 : (0 : Int) ≤ i % (2 : Int) ^ 64 := Int.emod_nonneg i (by norm_num)
  have h2 : i % (2 : Int) ^ 64 < (2 : Int) ^ 64 :=
    Int.emod_lt_of_pos i (by norm_num)
  have e1 : ((2 : Int) ^ 64) = 18446744073709551616 := by norm_num
  have e2 : (256 : Nat) ^ 8 = 18446744073709551616 := by norm_num
  omega

/-- Helper: the 32-bit two's-complement image fits in 4 bytes. -/
theorem unsigned32_lt (i : Int) : unsigned32 i < 256 ^ 4 := by
  unfold unsigned32
  have h1 : (0 : Int) ≤ i % (2 : Int) ^ 32 := Int.emod_nonneg i (by norm_num)
  have h2 : i % (2 : Int) ^ 32 < (2 : Int) ^ 32 :=
    Int.emod_lt_of_pos i (by norm_num)
  have e1 : ((2 : Int) ^ 32) = 4294967296 := by norm_num
  have e2 : (256 : Nat) ^ 4 = 4294967296 := by norm_num
  omega

/-- Helper: signed 64-bit round trip through the two's-complement image. -/
theorem toSigned64_unsigned64 (i : Int) (h1 : -(2 ^ 63) ≤ i) (h2 : i < 2 ^ 63) :
    toSigned64 (unsigned64 i) = i := by
  unfold toSigned64 unsigned64
  have e1 : ((2 : Int) ^ 64) = 18446744073709551616 := by norm_num
  have e2 : ((2 : Int) ^ 63) = 9223372036854775808 := by norm_num
  have e3 : ((2 : Nat) ^ 63) = 9223372036854775808 := by norm_num
  rw [e1, e3]
  rw [e2] at h2
  rw [show -((2 : Int) ^ 63) = -9223372036854775808 from by norm_num] at h1
  split <;> rename_i hcase <;> omega

/-- Helper: signed 32-bit round trip through the two's-complement image. -/
theorem toSigned32_unsigned32 (i : Int) (h1 : -(2 ^ 31) ≤ i) (h2 : i < 2 ^ 31) :
    toSigned32 (unsigned32 i) = i := by
  unfold toSigned32 unsigned32
  have e1 : ((2 : Int) ^ 32) = 4294967296 := by norm_num
  have e2 : ((2 : Int) ^ 31) = 2147483648 := by norm_num
  have e3 : ((2 : Nat) ^ 31) = 2147483648 := by norm_num
  rw [e1, e3]
  rw [e2] at h2
  rw [show -((2 : Int) ^ 31) = -2147483648 from by norm_num] at h1
  split <;> rename_i hcase <;> omega

/-- C6: the value decoder performs exactly the source's case analysis.  The
DECIMALV2 branch decodes the 12-byte packed decimal through its signed
integer and fraction components (so that encoding then decoding reproduces
both exactly) and reads only those 12 bytes; the DATE branch decodes a
3-byte packed value through from_olap_date and reads only 3 bytes; the
DATETIME branch decodes an 8-byte packed value through from_olap_datetime
and reads only 8 bytes; every other primitive type is a plain bitwise copy
of exactly sizeof(ResultType) bytes. -/
theorem c6_get_zone_map_value_cases (resultSize : Nat) :
    (∀ integer fraction : Int, -(2 ^ 63) ≤ integer → integer < 2 ^ 63 →
       -(2 ^ 31) ≤ fraction → fraction < 2 ^ 31 →
       ∀ rest : List Nat,
         get_zone_map_value .TYPE_DECIMALV2 resultSize (encode_decimal12 integer fraction ++ rest)
           = .from_olap_decimal integer fraction) ∧
    (∀ date : Nat, date < 2 ^ 24 → ∀ rest : List Nat,
       get_zone_map_value .TYPE_DATE resultSize (leBytes 3 date ++ rest)
         = .from_olap_date date) ∧
    (∀ datetime : Nat, datetime < 2 ^ 64 → ∀ rest : List Nat,
       get_zone_map_value .TYPE_DATETIME resultSize (leBytes 8 datetime ++ rest)
         = .from_olap_datetime datetime) ∧
    (∀ primitive_type : PrimitiveType, primitive_type ≠ .TYPE_DECIMALV2 →
       primitive_type ≠ .TYPE_DATE → primitive_type ≠ .TYPE_DATETIME →
       ∀ bytes rest : List Nat, bytes.length = resultSize →
         get_zone_map_value primitive_type resultSize (bytes ++ rest)
           = .bitwise_copy bytes) := by
  refine ⟨?_, ?_, ?_, ?_⟩
  · intro integer fraction hi1 hi2 hf1 hf2 rest
    unfold encode_decimal12
    have htake : ((leBytes 8 (unsigned64 integer) ++ leBytes 4 (unsigned32 fraction))
        ++ rest).take 8 = leBytes 8 (unsigned64 integer) := by
      rw [List.append_assoc]
      exact List.take_left' (leBytes_length 8 _)
    have hdrop : ((leBytes 8 (unsigned64 integer) ++ leBytes 4 (unsigned32 fraction))
        ++ rest).drop 8 = leBytes 4 (unsigned32 fraction) ++ rest := by
      rw [List.append_assoc]
      exact List.drop_left' (leBytes_length 8 _)
    have htake4 : (leBytes 4 (unsigned32 fraction) ++ rest).take 4
        = leBytes 4 (unsigned32 fraction) := List.take_left' (leBytes_length 4 _)
    simp only [get_zone_map_value, htake, hdrop, htake4]
    rw [leVal_leBytes 8 _ (unsigned64_lt integer), leVal_leBytes 4 _ (unsigned32_lt fraction),
      toSigned64_unsigned64 integer hi1 hi2, toSigned32_unsigned32 fraction hf1 hf2]
  · intro date hd rest
    have htake : (leBytes 3 date ++ rest).take 3 = leBytes 3 date :=
      List.take_left' (leBytes_length 3 _)
    simp only [get_zone_map_value, htake]
    rw [leVal_leBytes 3 date (by norm_num at hd ⊢; omega)]
  · intro datetime hd rest
    have htake : (leBytes 8 datetime ++ rest).take 8 = leBytes 8 datetime :=
      List.take_left' (leBytes_length 8 _)
    simp only [get_zone_map_value, htake]
    rw [leVal_leBytes 8 datetime (by norm_num at hd ⊢; omega)]
  · intro primitive_type hne1 hne2 hne3 bytes rest hlen
    have htake : (bytes ++ rest).take resultSize = bytes := List.take_left' hlen
    cases primitive_type <;> first
      | exact absurd rfl hne1
      | exact absurd rfl hne2
      | exact absurd rfl hne3
      | simp only [get_zone_map_value, htake]

/-- C6 witness: decoding a concrete 12-byte packed decimal with a negative
integer part, a concrete 3-byte date and a concrete bitwise copy. -/
theorem c6_get_zone_map_value_witness :
    get_zone_map_value .TYPE_DECIMALV2 16 (encode_decimal12 (-12345) 678900000 ++ [9, 9])
      = .from_olap_decimal (-12345) 678900000 ∧
    get_zone_map_value .TYPE_DATE 16 (leBytes 3 1010802 ++ [7])
      = .from_olap_date 1010802 ∧
    get_zone_map_value .TYPE_INT 4 ([1, 2, 3, 4] ++ [5, 6]) = .bitwise_copy [1, 2, 3, 4] :=
  ⟨(c6_get_zone_map_value_cases 16).1 (-12345) 678900000 (by norm_num) (by norm_num)
     (by norm_num) (by norm_num) [9, 9],
   (c6_get_zone_map_value_cases 16).2.1 1010802 (by norm_num) [7],
   (c6_get_zone_map_value_cases 4).2.2.2 .TYPE_INT (by decide) (by decide) (by decide)
     [1, 2, 3, 4] [5, 6] rfl⟩

/-- C10 witness: the contract applied to a concrete attach call. -/
theorem c10_attach_witness :
    (attach_profile_counter 7 (some ⟨3⟩) none (mkColumnPredicate 10 2 false)).runtime_filter_id
      = 7 ∧
    (_can_ignore (attach_profile_counter 7 (some ⟨3⟩) none (mkColumnPredicate 10 2 false))
      = true ↔ (7 : Int) ≠ -1) :=
  ⟨(c10_attach_profile_counter_contract 7 (some ⟨3⟩) none (mkColumnPredicate 10 2 false)).1,
   (c10_attach_profile_counter_contract 7 (some ⟨3⟩) none (mkColumnPredicate 10 2 false)).2.1⟩

end Doris
